import Mathlib

/-
Shallow embedding of system/vold's model/Disk.cpp (the Disk lifecycle:
create/destroy, partition-table scanning and classification, and the
repartitioning operations partitionPublic / partitionPrivate / partitionMixed).

External collaborators (sgdisk invocations, sysfs reads, the key store, the
random generators, the filesystem probe) are modelled as explicit environment
records whose fields carry the result each call would produce; the functions
of Disk.cpp are translated as pure state transformers over those environments.
Machine integers are modelled as Nat/Int (values in the claims stay far from
any overflow boundary).
-/

/-- A kernel block device number: the (major, minor) pair (dev_t). -/
structure DevT where
  major : Nat
  minor : Nat
deriving DecidableEq

/-- Partition-table kind, mirroring `enum class Table` in Disk.cpp. -/
inductive Table
  | kUnknown
  | kMbr
  | kGpt
deriving DecidableEq

/-- The per-partition classification decision the scanner takes:
instantiate a public volume on the child device, a private volume carrying the
record's partition GUID, or nothing. -/
inductive Decision
  | Public (dev : DevT)
  | Private (dev : DevT) (partGuid : String)
deriving DecidableEq

/-- A volume owned by a Disk, at the granularity the lifecycle needs:
a PublicVolume on a device, a PrivateVolume carrying its partition GUID and
loaded key bytes, or a StubVolume. -/
inductive Volume
  | pub (dev : DevT)
  | priv (dev : DevT) (partGuid : String) (key : List Nat)
  | stubVol
deriving DecidableEq

/-- ASCII lowercasing of one character, as strcasecmp does. -/
def asciiLower (c : Char) : Char :=
  if 'A' ≤ c ∧ c ≤ 'Z' then Char.ofNat (c.toNat + 32) else c

/-- android::base::EqualsIgnoreCase: ASCII case-insensitive string equality. -/
def eqIgnoreCase (a b : String) : Bool :=
  a.data.map asciiLower == b.data.map asciiLower

/-- Value of one hexadecimal digit character, if it is one. -/
def hexDigitVal? (c : Char) : Option Nat :=
  if '0' ≤ c ∧ c ≤ '9' then some (c.toNat - 48)
  else if 'a' ≤ c ∧ c ≤ 'f' then some (c.toNat - 87)
  else if 'A' ≤ c ∧ c ≤ 'F' then some (c.toNat - 55)
  else none

/-- Accumulate digits of the given base; fails on any non-digit. -/
def parseDigitsAux (base : Nat) : List Char → Nat → Option Nat
  | [], acc => some acc
  | c :: cs, acc =>
    match hexDigitVal? c with
    | some d => if d < base then parseDigitsAux base cs (acc * base + d) else none
    | none => none

/-- Parse a nonempty all-digit string in the given base. -/
def parseDigits (base : Nat) : List Char → Option Nat
  | [] => none
  | c :: cs => parseDigitsAux base (c :: cs) 0

/-- android::base::ParseInt with bounds: base 16 when the string carries an
"0x"/"0X" prefix, base 10 otherwise; the whole string must be consumed and the
value must lie within the given bounds.  (Disk.cpp never feeds it a sign.) -/
def parseAndroidInt? (s : String) (lo hi : Nat) : Option Nat :=
  let v? :=
    match s.data with
    | '0' :: 'x' :: rest => parseDigits 16 rest
    | '0' :: 'X' :: rest => parseDigits 16 rest
    | cs => parseDigits 10 cs
  match v? with
  | some v => if lo ≤ v ∧ v ≤ hi then some v else none
  | none => none

/-- INT_MAX, the upper bound of ParseInt over `int`. -/
def intMax : Nat := 2147483647

/-- GPT type GUID for "Microsoft basic data" (kGptBasicData). -/
def kGptBasicData : String := "EBD0A0A2-B9E5-4433-87C0-68B6B72699C7"

/-- GPT type GUID for "Linux filesystem data" (kGptLinuxFilesystem). -/
def kGptLinuxFilesystem : String := "0FC63DAF-8483-4772-8E79-3D69D8477DE4"

/-- GPT type GUID for Android metadata (kGptAndroidMeta). -/
def kGptAndroidMeta : String := "19A710A2-B3CA-11E4-B026-10604B889DCF"

/-- GPT type GUID for Android expand (kGptAndroidExpand). -/
def kGptAndroidExpand : String := "193D1EA4-B3CA-11E4-B075-10604B889DCF"

/-- The loop state of the parsing loop in Disk::readPartitions: the table kind
recorded so far, whether any PART line has been seen, and the classification
decisions taken so far, in order. -/
structure ScanState where
  table : Table
  foundParts : Bool
  decisions : List Decision
deriving DecidableEq

/-- Handling of a "DISK" line's remaining tokens: record the table kind when
the second token is "mbr" or "gpt"; anything else is logged and ignored. -/
def scanDiskTok (st : ScanState) (rest : List String) : ScanState :=
  match rest with
  | [] => st
  | t :: _ =>
    if t = "mbr" then { st with table := Table.kMbr }
    else if t = "gpt" then { st with table := Table.kGpt }
    else st

/-- Handling of a PART record's type byte under an MBR table: parse
"0x" ++ token as an int; the fixed allow-list 0x06/0x07/0x0b/0x0c/0x0e/0x83
yields a Public decision, anything else yields none. -/
def scanMbrPart (st : ScanState) (partDevice : DevT) (rest : List String) : ScanState :=
  match rest with
  | [] => st
  | typeTok :: _ =>
    match parseAndroidInt? ("0x" ++ typeTok) 0 intMax with
    | none => st
    | some t =>
      if t = 0x06 ∨ t = 0x07 ∨ t = 0x0b ∨ t = 0x0c ∨ t = 0x0e ∨ t = 0x83 then
        { st with decisions := st.decisions ++ [Decision.Public partDevice] }
      else st

/-- Handling of a PART record's (type-GUID, partition-GUID) pair under a GPT
table: basic-data or Linux-filesystem type GUIDs (case-insensitively) yield a
Public decision, the Android-expand GUID yields a Private decision carrying the
partition GUID, anything else yields none. -/
def scanGptPart (st : ScanState) (partDevice : DevT) (rest : List String) : ScanState :=
  match rest with
  | typeGuid :: partGuid :: _ =>
    if eqIgnoreCase typeGuid kGptBasicData || eqIgnoreCase typeGuid kGptLinuxFilesystem then
      { st with decisions := st.decisions ++ [Decision.Public partDevice] }
    else if eqIgnoreCase typeGuid kGptAndroidExpand then
      { st with decisions := st.decisions ++ [Decision.Private partDevice partGuid] }
    else st
  | _ => st

/-- Handling of a "PART" line's remaining tokens: mark that a partition record
was found, parse the 1-based index against [1, maxMinors] (invalid indices are
skipped with a warning), compute the child device, and dispatch on the table
kind recorded so far. -/
def scanPartTok (dev : DevT) (maxMinors : Nat) (st : ScanState) (rest : List String) : ScanState :=
  let st1 := { st with foundParts := true }
  match rest with
  | [] => st1
  | idxTok :: rest2 =>
    match parseAndroidInt? idxTok 1 maxMinors with
    | none => st1
    | some i =>
      let partDevice : DevT := ⟨dev.major, dev.minor + i⟩
      match st1.table with
      | Table.kMbr => scanMbrPart st1 partDevice rest2
      | Table.kGpt => scanGptPart st1 partDevice rest2
      | Table.kUnknown => st1

/-- One line of sgdisk --android-dump output (already whitespace-tokenized),
as consumed by the parsing loop of Disk::readPartitions. -/
def scanLine (dev : DevT) (maxMinors : Nat) (st : ScanState) (line : List String) : ScanState :=
  match line with
  | [] => st
  | tok :: rest =>
    if tok = "DISK" then scanDiskTok st rest
    else if tok = "PART" then scanPartTok dev maxMinors st rest
    else st

/-- The whole parsing loop of Disk::readPartitions over the tool output. -/
def scanFold (dev : DevT) (maxMinors : Nat) (output : List (List String)) : ScanState :=
  output.foldl (scanLine dev maxMinors) ⟨Table.kUnknown, false, []⟩

/-- Result of the scanning phase: the recorded table kind, the decisions in
discovery order, and whether the whole-disk fallback probe was attempted. -/
structure ScanResult where
  table : Table
  decisions : List Decision
  wholeDiskProbed : Bool
deriving DecidableEq

/-- The scanning phase of Disk::readPartitions, with the last-ditch fallback:
when no table kind was recorded or no PART record was found, probe the entire
device (ReadMetadataUntrusted); a successful probe yields one Public decision
against the whole-disk device, a failed probe yields nothing. -/
def scanOutput (dev : DevT) (maxMinors : Nat) (output : List (List String))
    (probeOk : Bool) : ScanResult :=
  let st := scanFold dev maxMinors output
  if st.table = Table.kUnknown ∨ st.foundParts = false then
    if probeOk then ⟨st.table, st.decisions ++ [Decision.Public dev], true⟩
    else ⟨st.table, st.decisions, true⟩
  else ⟨st.table, st.decisions, false⟩

/-- The key store, an external collaborator: raw key bytes looked up by the
normalized hex partition GUID (BuildKeyPath / ReadFileToString /
WriteStringToFile in the source). -/
def KeyStore : Type := String → Option (List Nat)

/-- Modelled from the spec: Utils' NormalizeHex (called by
Disk::createPrivateVolume) is not under src/.  Per the spec it normalizes a
partition GUID to lowercase hex, rejecting malformed GUIDs: separator
characters are dropped, every remaining character must be a hex digit, the
digit count must be even (whole bytes), and the result is the lowercase hex
string. -/
def normalizeHex (s : String) : Option String :=
  let cs := s.data.filter (fun c => ¬(c = '-' ∨ c = ':' ∨ c = ' '))
  if cs.all (fun c => (hexDigitVal? c).isSome) ∧ cs.length % 2 = 0 then
    some ⟨cs.map asciiLower⟩
  else none

/-- One byte rendered as two lowercase hex characters. -/
def nibbleChar (n : Nat) : Char :=
  if n < 10 then Char.ofNat (48 + n) else Char.ofNat (87 + n)

/-- Modelled from the spec: Utils' StrToHex (called by Disk::partitionMixed)
is not under src/.  Per the spec the freshly generated raw identifier is
persisted under its normalized (lowercase) hex form; this renders raw bytes as
lowercase hex. -/
def strToHex (bs : List Nat) : String :=
  ⟨bs.foldr (fun b acc => nibbleChar (b / 16 % 16) :: nibbleChar (b % 16) :: acc) []⟩

/-- The outcome of Disk::createPublicVolume / Disk::createPrivateVolume for
one scan decision: the volume appended to mVolumes, or none when the private
path bails out (invalid GUID, or no key found for the normalized GUID).  The
justPartitioned silent-format side effects do not change the owned sequence. -/
def decisionVolume (ks : KeyStore) : Decision → Option Volume
  | Decision.Public dev => some (Volume.pub dev)
  | Decision.Private dev partGuid =>
    match normalizeHex partGuid with
    | none => none
    | some normalized =>
      match ks normalized with
      | none => none
      | some key => some (Volume.priv dev partGuid key)

/-- The Disk state the claims need, mirroring the fields of class Disk
(mIsStub stands for the kStub bit of mFlags). -/
structure Disk where
  mDevice : DevT
  mCreated : Bool
  mJustPartitioned : Bool
  mSkipChange : Bool
  mVolumes : List Volume
  mIsStub : Bool
deriving DecidableEq

/-- Disk::destroyAllVolumes: destroy every owned volume, then clear the
owned sequence. -/
def Disk.destroyAllVolumes (d : Disk) : Disk :=
  { d with mVolumes := [] }

/-- Environment of one Disk::readPartitions call: the getMaxMinors result
(negative = error), the sgdisk --android-dump invocation result (error status,
or tokenized output lines), the whole-disk ReadMetadataUntrusted probe
outcome, and the key store contents. -/
structure ScanEnv where
  maxMinors : Int
  sgdisk : Except Int (List (List String))
  probeOk : Bool
  keyStore : KeyStore

/-- Result of one Disk::readPartitions call: the returned status (0 = OK),
the Disk state afterwards, whether sgdisk was invoked (a scan was performed),
and whether the onDiskScanned notification was fired. -/
structure RPResult where
  status : Int
  state : Disk
  sgdiskRun : Bool
  scannedFired : Bool

/-- Disk::readPartitions.  Errors out when maxMinors is undeterminable;
returns success without scanning (clearing the flag) when mSkipChange is set;
otherwise destroys all volumes, invokes sgdisk (an invocation failure still
fires onDiskScanned, clears mJustPartitioned and returns the tool's error),
classifies each record via the scanner, instantiates volumes per decision in
order, fires onDiskScanned, and clears mJustPartitioned. -/
def Disk.readPartitions (d : Disk) (env : ScanEnv) : RPResult :=
  if env.maxMinors < 0 then
    ⟨-95, d, false, false⟩  -- -ENOTSUP
  else if d.mSkipChange then
    ⟨0, { d with mSkipChange := false }, false, false⟩
  else
    let d1 := d.destroyAllVolumes
    match env.sgdisk with
    | Except.error e => ⟨e, { d1 with mJustPartitioned := false }, true, true⟩
    | Except.ok output =>
      let sr := scanOutput d.mDevice env.maxMinors.toNat output env.probeOk
      let vols := sr.decisions.filterMap (decisionVolume env.keyStore)
      ⟨0, { d1 with mVolumes := vols, mJustPartitioned := false }, true, true⟩

/-- Disk::create.  CHECK(!mCreated) is a fatal assertion, modelled as none.
A stub disk goes straight to createStubVolume, whose CHECK(mVolumes.size()==1)
is likewise fatal; a normal disk runs readMetadata (which touches no field
modelled here) and readPartitions, ignoring their status. -/
def Disk.create (env : ScanEnv) (d : Disk) : Option Disk :=
  if d.mCreated then none
  else
    let d1 := { d with mCreated := true }
    if d1.mIsStub then
      if d1.mVolumes.length = 1 then some d1 else none
    else
      some (d1.readPartitions env).state

/-- Disk::destroy.  CHECK(mCreated) is a fatal assertion, modelled as none;
otherwise all owned volumes are destroyed and the sequence cleared. -/
def Disk.destroy (d : Disk) : Option Disk :=
  if d.mCreated then some { d.destroyAllVolumes with mCreated := false }
  else none

/-- The strtok-based first-DISK-line table detection loop of
Disk::partitionPublic: the first line whose first token is "DISK" and whose
second token is "mbr" or "gpt" decides the kind (and breaks); other lines are
skipped.  (A "DISK" line with no second token would dereference NULL in the
source; no claim exercises it and it is modelled as a skipped line.) -/
def detectTable : List (List String) → Table
  | [] => Table.kUnknown
  | line :: rest =>
    match line with
    | tok :: t :: _ =>
      if tok = "DISK" then
        if t = "mbr" then Table.kMbr
        else if t = "gpt" then Table.kGpt
        else detectTable rest
      else detectTable rest
    | _ => detectTable rest

/-- Environment of one Disk::partitionPublic call: the best-effort pre-scan
sgdisk --android-dump result, the --zap-all status, and the final
partition-write sgdisk status. -/
structure PubEnv where
  preScan : Except Int (List (List String))
  zapStatus : Int
  writeStatus : Int

/-- The table kind the pre-scan of Disk::partitionPublic reports: a failed
tool invocation is tolerated and means no table. -/
def preScanTable (env : PubEnv) : Table :=
  match env.preScan with
  | Except.error _ => Table.kUnknown
  | Except.ok output => detectTable output

/-- Result of a partition operation: returned status, Disk state afterwards,
whether --zap-all was invoked, and whether the final table-construction sgdisk
command was invoked. -/
structure PartResult where
  status : Int
  state : Disk
  zapRun : Bool
  tableCmdRun : Bool

/-- Disk::partitionPublic: destroy all volumes, set mJustPartitioned,
pre-scan the current table (tool failure tolerated), set mSkipChange when the
pre-scan reports MBR, zap the old table (failure tolerated), then write the
single-public-partition table (failure returned). -/
def Disk.partitionPublic (d : Disk) (env : PubEnv) : PartResult :=
  let d1 := { d.destroyAllVolumes with mJustPartitioned := true }
  let d2 := if preScanTable env = Table.kMbr then { d1 with mSkipChange := true } else d1
  if env.writeStatus ≠ 0 then ⟨env.writeStatus, d2, true, true⟩
  else ⟨0, d2, true, true⟩

/-- Environment of one Disk::partitionMixed call: the --zap-all status, the
GenerateRandomUuid result (none = failure), the generate_volume_key result
(none = failure), whether persisting the key succeeded, and the final
table-construction sgdisk status. -/
structure MixedEnv where
  zapStatus : Int
  uuid : Option (List Nat)
  key : Option (List Nat)
  writeOk : Bool
  sgdiskStatus : Int

/-- Result of Disk::partitionMixed: returned status, Disk state afterwards,
key store afterwards, whether --zap-all ran, the (id, key) pair persisted if
any, and whether the final table-construction sgdisk command was invoked. -/
structure MixedResult where
  status : Int
  state : Disk
  keyStore : KeyStore
  zapRun : Bool
  keyPersisted : Option (String × List Nat)
  tableCmdRun : Bool

/-- Disk::partitionMixed: destroy all volumes, set mJustPartitioned, zap the
old table (failure tolerated), generate a fresh partition GUID and key
(failures return -EIO), persist the key under the hex GUID (failure returns
-EIO), then build the sgdisk command: a nonzero ratio below 10 or above 90 is
rejected with -EINVAL while building it; finally the table-construction
command runs and its failure status is returned. -/
def Disk.partitionMixed (d : Disk) (ratio : Int) (env : MixedEnv) (ks : KeyStore) : MixedResult :=
  let d1 := { d.destroyAllVolumes with mJustPartitioned := true }
  match env.uuid with
  | none => ⟨-5, d1, ks, true, none, false⟩  -- -EIO
  | some u =>
    match env.key with
    | none => ⟨-5, d1, ks, true, none, false⟩  -- -EIO
    | some key =>
      let partGuid := strToHex u
      if env.writeOk = false then ⟨-5, d1, ks, true, none, false⟩  -- -EIO
      else
        let ks1 : KeyStore := fun g => if g = partGuid then some key else ks g
        if 0 < ratio ∧ (ratio < 10 ∨ 90 < ratio) then
          ⟨-22, d1, ks1, true, some (partGuid, key), false⟩  -- -EINVAL
        else if env.sgdiskStatus ≠ 0 then
          ⟨env.sgdiskStatus, d1, ks1, true, some (partGuid, key), true⟩
        else
          ⟨0, d1, ks1, true, some (partGuid, key), true⟩

/-- Disk::partitionPrivate is partitionMixed with ratio 0. -/
def Disk.partitionPrivate (d : Disk) (env : MixedEnv) (ks : KeyStore) : MixedResult :=
  d.partitionMixed 0 env ks

/-- Case-insensitive equality is transitive across a shared left operand. -/
theorem eqIgnoreCase_trans {a b c : String} (h1 : eqIgnoreCase a b = true)
    (h2 : eqIgnoreCase a c = true) : eqIgnoreCase b c = true := by
  unfold eqIgnoreCase at h1 h2 ⊢
  rw [beq_iff_eq] at h1 h2 ⊢
  rw [← h1]
  exact h2

/-- Claim C1: during a scan that has recorded a GPT table, a PART record whose
type-GUID case-insensitively equals the basic-data or Linux-filesystem GUID
yields a Public decision for the child device, one equal to the Android-expand
GUID yields a Private decision carrying the record's partition GUID, and any
other type-GUID yields no decision. -/
theorem c1_gpt_classification (dev : DevT) (mm : Nat) (st : ScanState)
    (idxTok tg pg : String) (rest : List String) (i : Nat)
    (htbl : st.table = Table.kGpt)
    (hidx : parseAndroidInt? idxTok 1 mm = some i) :
    ((eqIgnoreCase tg kGptBasicData = true ∨ eqIgnoreCase tg kGptLinuxFilesystem = true) →
      (scanLine dev mm st ("PART" :: idxTok :: tg :: pg :: rest)).decisions
        = st.decisions ++ [Decision.Public ⟨dev.major, dev.minor + i⟩]) ∧
    (eqIgnoreCase tg kGptAndroidExpand = true →
      (scanLine dev mm st ("PART" :: idxTok :: tg :: pg :: rest)).decisions
        = st.decisions ++ [Decision.Private ⟨dev.major, dev.minor + i⟩ pg]) ∧
    ((eqIgnoreCase tg kGptBasicData = false ∧ eqIgnoreCase tg kGptLinuxFilesystem = false ∧
      eqIgnoreCase tg kGptAndroidExpand = false) →
      (scanLine dev mm st ("PART" :: idxTok :: tg :: pg :: rest)).decisions = st.decisions) := by
  obtain ⟨tbl, fp, ds⟩ := st
  simp only at htbl
  subst htbl
  have hscan : scanLine dev mm ⟨Table.kGpt, fp, ds⟩ ("PART" :: idxTok :: tg :: pg :: rest)
      = scanGptPart ⟨Table.kGpt, true, ds⟩ ⟨dev.major, dev.minor + i⟩ (tg :: pg :: rest) := by
    show scanPartTok dev mm ⟨Table.kGpt, fp, ds⟩ (idxTok :: tg :: pg :: rest)
      = scanGptPart ⟨Table.kGpt, true, ds⟩ ⟨dev.major, dev.minor + i⟩ (tg :: pg :: rest)
    simp only [scanPartTok, hidx]
  rw [hscan]
  refine ⟨?_, ?_, ?_⟩
  · intro h
    rcases h with h | h <;> simp [scanGptPart, h]
  · intro h
    have hc1 : eqIgnoreCase tg kGptBasicData = false := by
      cases hb : eqIgnoreCase tg kGptBasicData
      · rfl
      · exact absurd (eqIgnoreCase_trans hb h) (by decide)
    have hc2 : eqIgnoreCase tg kGptLinuxFilesystem = false := by
      cases hb : eqIgnoreCase tg kGptLinuxFilesystem
      · rfl
      · exact absurd (eqIgnoreCase_trans hb h) (by decide)
    simp [scanGptPart, hc1, hc2, h]
  · intro h
    simp [scanGptPart, h.1, h.2.1, h.2.2]

/-- Witness for C1: a GPT-mode PART record with the basic-data type GUID in
lowercase yields exactly one Public decision for child minor 1. -/
theorem c1_gpt_classification_witness :
    parseAndroidInt? "1" 1 15 = some 1 ∧
    (scanLine ⟨179, 0⟩ 15 ⟨Table.kGpt, false, []⟩
        ("PART" :: "1" :: "ebd0a0a2-b9e5-4433-87c0-68b6b72699c7" :: "X" :: [])).decisions
      = [] ++ [Decision.Public ⟨179, 1⟩] :=
  ⟨by decide,
    (c1_gpt_classification ⟨179, 0⟩ 15 ⟨Table.kGpt, false, []⟩ "1"
        "ebd0a0a2-b9e5-4433-87c0-68b6b72699c7" "X" [] 1 rfl (by decide)).1
      (Or.inl (by decide))⟩

/-- Claim C2: during a scan that has recorded an MBR table, a PART record
whose hex type byte parses to one of 0x06, 0x07, 0x0b, 0x0c, 0x0e, 0x83
yields a Public decision for the child device, and any other parsed type
yields no decision. -/
theorem c2_mbr_classification (dev : DevT) (mm : Nat) (st : ScanState)
    (idxTok typeTok : String) (rest : List String) (i t : Nat)
    (htbl : st.table = Table.kMbr)
    (hidx : parseAndroidInt? idxTok 1 mm = some i)
    (htype : parseAndroidInt? ("0x" ++ typeTok) 0 intMax = some t) :
    ((t = 0x06 ∨ t = 0x07 ∨ t = 0x0b ∨ t = 0x0c ∨ t = 0x0e ∨ t = 0x83) →
      (scanLine dev mm st ("PART" :: idxTok :: typeTok :: rest)).decisions
        = st.decisions ++ [Decision.Public ⟨dev.major, dev.minor + i⟩]) ∧
    (¬(t = 0x06 ∨ t = 0x07 ∨ t = 0x0b ∨ t = 0x0c ∨ t = 0x0e ∨ t = 0x83) →
      (scanLine dev mm st ("PART" :: idxTok :: typeTok :: rest)).decisions = st.decisions) := by
  obtain ⟨tbl, fp, ds⟩ := st
  simp only at htbl
  subst htbl
  have hscan : scanLine dev mm ⟨Table.kMbr, fp, ds⟩ ("PART" :: idxTok :: typeTok :: rest)
      = scanMbrPart ⟨Table.kMbr, true, ds⟩ ⟨dev.major, dev.minor + i⟩ (typeTok :: rest) := by
    show scanPartTok dev mm ⟨Table.kMbr, fp, ds⟩ (idxTok :: typeTok :: rest)
      = scanMbrPart ⟨Table.kMbr, true, ds⟩ ⟨dev.major, dev.minor + i⟩ (typeTok :: rest)
    simp only [scanPartTok, hidx]
  rw [hscan]
  constructor
  · intro h
    simp [scanMbrPart, htype, h]
  · intro h
    simp [scanMbrPart, htype, h]

/-- Witness for C2: an MBR-mode PART record with type byte 83 (Linux) yields
exactly one Public decision, and one with type byte 0a yields none. -/
theorem c2_mbr_classification_witness :
    parseAndroidInt? "2" 1 15 = some 2 ∧
    parseAndroidInt? ("0x" ++ "83") 0 intMax = some 0x83 ∧
    (scanLine ⟨179, 0⟩ 15 ⟨Table.kMbr, false, []⟩
        ("PART" :: "2" :: "83" :: [])).decisions = [] ++ [Decision.Public ⟨179, 2⟩] :=
  ⟨by decide, by decide,
    (c2_mbr_classification ⟨179, 0⟩ 15 ⟨Table.kMbr, false, []⟩ "2" "83" [] 2 0x83
        rfl (by decide) (by decide)).1 (by decide)⟩


/-- A "DISK" line never changes the decision list. -/
theorem scanDiskTok_decisions (st : ScanState) (rest : List String) :
    (scanDiskTok st rest).decisions = st.decisions := by
  unfold scanDiskTok
  cases rest with
  | nil => rfl
  | cons t ts =>
    by_cases h1 : t = "mbr"
    · simp [h1]
    · by_cases h2 : t = "gpt" <;> simp [h1, h2]

/-- A "DISK" line never changes the foundParts flag. -/
theorem scanDiskTok_foundParts (st : ScanState) (rest : List String) :
    (scanDiskTok st rest).foundParts = st.foundParts := by
  unfold scanDiskTok
  cases rest with
  | nil => rfl
  | cons t ts =>
    by_cases h1 : t = "mbr"
    · simp [h1]
    · by_cases h2 : t = "gpt" <;> simp [h1, h2]

/-- A "DISK" line never takes the recorded table kind back to unknown. -/
theorem scanDiskTok_table_ne (st : ScanState) (rest : List String)
    (h : st.table ≠ Table.kUnknown) : (scanDiskTok st rest).table ≠ Table.kUnknown := by
  unfold scanDiskTok
  cases rest with
  | nil => exact h
  | cons t ts =>
    by_cases h1 : t = "mbr"
    · simp [h1]
    · by_cases h2 : t = "gpt" <;> simp [h1, h2, h]

/-- An MBR-mode type byte never changes the recorded table kind. -/
theorem scanMbrPart_table (st : ScanState) (d : DevT) (rest : List String) :
    (scanMbrPart st d rest).table = st.table := by
  unfold scanMbrPart
  cases rest with
  | nil => rfl
  | cons typeTok ts =>
    cases hp : parseAndroidInt? ("0x" ++ typeTok) 0 intMax with
    | none => simp [hp]
    | some t =>
      by_cases h : t = 0x06 ∨ t = 0x07 ∨ t = 0x0b ∨ t = 0x0c ∨ t = 0x0e ∨ t = 0x83 <;>
        simp [hp, h]

/-- An MBR-mode type byte never changes the foundParts flag. -/
theorem scanMbrPart_foundParts (st : ScanState) (d : DevT) (rest : List String) :
    (scanMbrPart st d rest).foundParts = st.foundParts := by
  unfold scanMbrPart
  cases rest with
  | nil => rfl
  | cons typeTok ts =>
    cases hp : parseAndroidInt? ("0x" ++ typeTok) 0 intMax with
    | none => simp [hp]
    | some t =>
      by_cases h : t = 0x06 ∨ t = 0x07 ∨ t = 0x0b ∨ t = 0x0c ∨ t = 0x0e ∨ t = 0x83 <;>
        simp [hp, h]

/-- A GPT-mode GUID pair never changes the recorded table kind. -/
theorem scanGptPart_table (st : ScanState) (d : DevT) (rest : List String) :
    (scanGptPart st d rest).table = st.table := by
  unfold scanGptPart
  split
  · split
    · rfl
    · split <;> rfl
  · rfl

/-- A GPT-mode GUID pair never changes the foundParts flag. -/
theorem scanGptPart_foundParts (st : ScanState) (d : DevT) (rest : List String) :
    (scanGptPart st d rest).foundParts = st.foundParts := by
  unfold scanGptPart
  split
  · split
    · rfl
    · split <;> rfl
  · rfl

/-- A "PART" line never changes the recorded table kind. -/
theorem scanPartTok_table (dev : DevT) (mm : Nat) (st : ScanState) (rest : List String) :
    (scanPartTok dev mm st rest).table = st.table := by
  unfold scanPartTok
  cases rest with
  | nil => rfl
  | cons idxTok rest2 =>
    cases hp : parseAndroidInt? idxTok 1 mm with
    | none => simp [hp]
    | some i =>
      simp only [hp]
      cases ht : st.table <;> simp [ht, scanMbrPart_table, scanGptPart_table]

/-- A "PART" line always leaves foundParts set. -/
theorem scanPartTok_foundParts (dev : DevT) (mm : Nat) (st : ScanState) (rest : List String) :
    (scanPartTok dev mm st rest).foundParts = true := by
  unfold scanPartTok
  cases rest with
  | nil => rfl
  | cons idxTok rest2 =>
    cases hp : parseAndroidInt? idxTok 1 mm with
    | none => simp [hp]
    | some i =>
      simp only [hp]
      cases ht : st.table <;> simp [ht, scanMbrPart_foundParts, scanGptPart_foundParts]

/-- A "PART" line seen while no table kind is recorded takes no decision. -/
theorem scanPartTok_decisions_unknown (dev : DevT) (mm : Nat) (st : ScanState)
    (rest : List String) (h : st.table = Table.kUnknown) :
    (scanPartTok dev mm st rest).decisions = st.decisions := by
  unfold scanPartTok
  cases rest with
  | nil => rfl
  | cons idxTok rest2 =>
    cases hp : parseAndroidInt? idxTok 1 mm with
    | none => simp [hp]
    | some i => simp [hp, h]

/-- Loop invariant of the parsing loop: a nonempty decision list implies a
recorded table kind and a seen PART record. -/
theorem scanLine_inv (dev : DevT) (mm : Nat) (st : ScanState) (line : List String)
    (h : st.decisions = [] ∨ (st.table ≠ Table.kUnknown ∧ st.foundParts = true)) :
    (scanLine dev mm st line).decisions = [] ∨
      ((scanLine dev mm st line).table ≠ Table.kUnknown ∧
        (scanLine dev mm st line).foundParts = true) := by
  cases line with
  | nil => exact h
  | cons tok rest =>
    have e : scanLine dev mm st (tok :: rest)
        = (if tok = "DISK" then scanDiskTok st rest
          else if tok = "PART" then scanPartTok dev mm st rest else st) := rfl
    rw [e]
    by_cases h1 : tok = "DISK"
    · rw [if_pos h1]
      rcases h with h | ⟨ht, hf⟩
      · exact Or.inl ((scanDiskTok_decisions st rest).trans h)
      · exact Or.inr ⟨scanDiskTok_table_ne st rest ht,
          (scanDiskTok_foundParts st rest).trans hf⟩
    · rw [if_neg h1]
      by_cases h2 : tok = "PART"
      · rw [if_pos h2]
        by_cases htbl : st.table = Table.kUnknown
        · rcases h with h | ⟨ht, _⟩
          · exact Or.inl ((scanPartTok_decisions_unknown dev mm st rest htbl).trans h)
          · exact absurd htbl ht
        · exact Or.inr ⟨by rw [scanPartTok_table]; exact htbl,
            scanPartTok_foundParts dev mm st rest⟩
      · rw [if_neg h2]
        exact h

/-- The invariant holds of the whole parsing loop. -/
theorem scanFold_inv (dev : DevT) (mm : Nat) (output : List (List String)) :
    (scanFold dev mm output).decisions = [] ∨
      ((scanFold dev mm output).table ≠ Table.kUnknown ∧
        (scanFold dev mm output).foundParts = true) := by
  have main : ∀ (out : List (List String)) (st : ScanState),
      st.decisions = [] ∨ (st.table ≠ Table.kUnknown ∧ st.foundParts = true) →
      (out.foldl (scanLine dev mm) st).decisions = [] ∨
        ((out.foldl (scanLine dev mm) st).table ≠ Table.kUnknown ∧
          (out.foldl (scanLine dev mm) st).foundParts = true) := by
    intro out
    induction out with
    | nil => intro st h; exact h
    | cons line rest ih =>
      intro st h
      exact ih (scanLine dev mm st line) (scanLine_inv dev mm st line h)
  exact main output ⟨Table.kUnknown, false, []⟩ (Or.inl rfl)

/-- Claim C8: in a readPartitions run whose tool output recorded no table kind
or no PART record, the whole disk is probed; a successful probe yields exactly
one Public volume against the raw whole-disk device, a failed probe yields no
volume at all. -/
theorem c8_whole_disk_fallback (d : Disk) (env : ScanEnv) (output : List (List String))
    (h0 : 0 ≤ env.maxMinors) (h1 : d.mSkipChange = false)
    (h2 : env.sgdisk = Except.ok output)
    (h : (scanFold d.mDevice env.maxMinors.toNat output).table = Table.kUnknown ∨
        (scanFold d.mDevice env.maxMinors.toNat output).foundParts = false) :
    (scanOutput d.mDevice env.maxMinors.toNat output env.probeOk).wholeDiskProbed = true ∧
    (d.readPartitions env).state.mVolumes
      = (if env.probeOk then [Volume.pub d.mDevice] else []) := by
  have hdec : (scanFold d.mDevice env.maxMinors.toNat output).decisions = [] := by
    rcases scanFold_inv d.mDevice env.maxMinors.toNat output with hd | ⟨ht, hf⟩
    · exact hd
    · rcases h with hh | hh
      · exact absurd hh ht
      · exact absurd (hf.symm.trans hh) (by decide)
  have hso : scanOutput d.mDevice env.maxMinors.toNat output env.probeOk
      = (if env.probeOk then
          (⟨(scanFold d.mDevice env.maxMinors.toNat output).table,
            [Decision.Public d.mDevice], true⟩ : ScanResult)
        else ⟨(scanFold d.mDevice env.maxMinors.toNat output).table, [], true⟩) := by
    simp only [scanOutput]
    rw [if_pos h]
    cases env.probeOk <;> simp [hdec]
  constructor
  · rw [hso]
    cases env.probeOk <;> simp
  · simp only [Disk.readPartitions]
    rw [if_neg (by omega), if_neg (by simp [h1]), h2]
    simp only [hso]
    cases env.probeOk <;> simp [decisionVolume]

/-- Witness for C8: output with a single unrecognized line records no table;
with a successful probe the scan yields exactly the whole-disk public volume. -/
theorem c8_whole_disk_fallback_witness :
    (scanFold ⟨8, 0⟩ (15 : Int).toNat [["FOO"]]).table = Table.kUnknown ∧
    (Disk.readPartitions ⟨⟨8, 0⟩, true, false, false, [], false⟩
        ⟨15, Except.ok [["FOO"]], true, fun _ => none⟩).state.mVolumes
      = [Volume.pub ⟨8, 0⟩] :=
  ⟨rfl,
    (c8_whole_disk_fallback ⟨⟨8, 0⟩, true, false, false, [], false⟩
        ⟨15, Except.ok [["FOO"]], true, fun _ => none⟩ [["FOO"]]
        (by decide) rfl rfl (Or.inl rfl)).2⟩

/-- Claim C5: whenever readPartitions proceeds past the skipChange check, it
fires the disk-scanned notification and clears mJustPartitioned regardless of
outcome; when the partition-dump tool fails, the notification still fires, the
flag is still cleared, and the tool's error status is returned. -/
theorem c5_scan_always_notifies (d : Disk) (env : ScanEnv)
    (h0 : 0 ≤ env.maxMinors) (h1 : d.mSkipChange = false) :
    (d.readPartitions env).scannedFired = true ∧
    (d.readPartitions env).state.mJustPartitioned = false ∧
    (∀ e : Int, env.sgdisk = Except.error e → (d.readPartitions env).status = e) := by
  simp only [Disk.readPartitions]
  rw [if_neg (by omega), if_neg (by simp [h1])]
  cases hs : env.sgdisk <;> simp

/-- Witness for C5: on a disk mid-partitioning, a failed tool invocation with
status 7 still fires disk-scanned, clears mJustPartitioned, and returns 7. -/
theorem c5_scan_always_notifies_witness :
    (Disk.readPartitions ⟨⟨8, 0⟩, true, true, false, [Volume.pub ⟨8, 1⟩], false⟩
      ⟨15, Except.error 7, false, fun _ => none⟩).scannedFired = true ∧
    (Disk.readPartitions ⟨⟨8, 0⟩, true, true, false, [Volume.pub ⟨8, 1⟩], false⟩
      ⟨15, Except.error 7, false, fun _ => none⟩).state.mJustPartitioned = false ∧
    (Disk.readPartitions ⟨⟨8, 0⟩, true, true, false, [Volume.pub ⟨8, 1⟩], false⟩
      ⟨15, Except.error 7, false, fun _ => none⟩).status = 7 := by
  have h := c5_scan_always_notifies ⟨⟨8, 0⟩, true, true, false, [Volume.pub ⟨8, 1⟩], false⟩
    ⟨15, Except.error 7, false, fun _ => none⟩ (by decide) rfl
  exact ⟨h.1, h.2.1, h.2.2 7 rfl⟩

/-- Claim C6: with skipChange set and maxMinors determinable, readPartitions
performs no scan, destroys no volumes, clears the flag and returns success;
the next call, with the flag now clear, performs a real scan. -/
theorem c6_skip_change (d : Disk) (env env2 : ScanEnv)
    (h0 : 0 ≤ env.maxMinors) (h1 : d.mSkipChange = true) (h2 : 0 ≤ env2.maxMinors) :
    (d.readPartitions env).status = 0 ∧
    (d.readPartitions env).sgdiskRun = false ∧
    (d.readPartitions env).scannedFired = false ∧
    (d.readPartitions env).state.mVolumes = d.mVolumes ∧
    (d.readPartitions env).state.mSkipChange = false ∧
    (((d.readPartitions env).state.readPartitions env2).sgdiskRun = true) := by
  have e1 : d.readPartitions env = ⟨0, { d with mSkipChange := false }, false, false⟩ := by
    simp only [Disk.readPartitions]
    rw [if_neg (by omega), if_pos (by simp [h1])]
  rw [e1]
  refine ⟨rfl, rfl, rfl, rfl, rfl, ?_⟩
  simp only [Disk.readPartitions]
  rw [if_neg (by omega), if_neg (by simp)]
  cases hs : env2.sgdisk <;> rfl

/-- Witness for C6: a suppressed first call followed by a real second scan. -/
theorem c6_skip_change_witness :
    (Disk.readPartitions ⟨⟨8, 0⟩, true, false, true, [Volume.pub ⟨8, 1⟩], false⟩
      ⟨15, Except.ok [], false, fun _ => none⟩).status = 0 ∧
    (Disk.readPartitions ⟨⟨8, 0⟩, true, false, true, [Volume.pub ⟨8, 1⟩], false⟩
      ⟨15, Except.ok [], false, fun _ => none⟩).sgdiskRun = false ∧
    (Disk.readPartitions ⟨⟨8, 0⟩, true, false, true, [Volume.pub ⟨8, 1⟩], false⟩
      ⟨15, Except.ok [], false, fun _ => none⟩).state.mVolumes = [Volume.pub ⟨8, 1⟩] ∧
    ((Disk.readPartitions ⟨⟨8, 0⟩, true, false, true, [Volume.pub ⟨8, 1⟩], false⟩
        ⟨15, Except.ok [], false, fun _ => none⟩).state.readPartitions
      ⟨15, Except.ok [], false, fun _ => none⟩).sgdiskRun = true := by
  have h := c6_skip_change ⟨⟨8, 0⟩, true, false, true, [Volume.pub ⟨8, 1⟩], false⟩
    ⟨15, Except.ok [], false, fun _ => none⟩ ⟨15, Except.ok [], false, fun _ => none⟩
    (by decide) rfl (by decide)
  exact ⟨h.1, h.2.1, h.2.2.2.1, h.2.2.2.2.2⟩

/-- Claim C7: partitionPublic sets mSkipChange before the table rewrite if and
only if its best-effort pre-scan reports an MBR table; in particular a failed
pre-scan tool invocation leaves mSkipChange false when it was false on entry. -/
theorem c7_public_prescan_skip (d : Disk) (env : PubEnv) (h : d.mSkipChange = false) :
    ((d.partitionPublic env).state.mSkipChange = true ↔ preScanTable env = Table.kMbr) ∧
    (∀ e : Int, env.preScan = Except.error e →
      (d.partitionPublic env).state.mSkipChange = false) := by
  have estate : (d.partitionPublic env).state
      = (if preScanTable env = Table.kMbr
          then { { d.destroyAllVolumes with mJustPartitioned := true } with mSkipChange := true }
          else { d.destroyAllVolumes with mJustPartitioned := true }) := by
    simp only [Disk.partitionPublic]
    split <;> rfl
  rw [estate]
  by_cases hm : preScanTable env = Table.kMbr
  · rw [if_pos hm]
    refine ⟨by simp [hm], ?_⟩
    intro e he
    unfold preScanTable at hm
    rw [he] at hm
    simp at hm
  · rw [if_neg hm]
    exact ⟨by simp [Disk.destroyAllVolumes, h, hm], fun e he => by
      simp [Disk.destroyAllVolumes, h]⟩

/-- Witness for C7: a pre-scan revealing an MBR table sets mSkipChange. -/
theorem c7_public_prescan_skip_witness :
    (Disk.partitionPublic ⟨⟨8, 0⟩, true, false, false, [], false⟩
      ⟨Except.ok [["DISK", "mbr"]], 0, 0⟩).state.mSkipChange = true :=
  (c7_public_prescan_skip ⟨⟨8, 0⟩, true, false, false, [], false⟩
      ⟨Except.ok [["DISK", "mbr"]], 0, 0⟩ rfl).1.mpr rfl

/-- readPartitions never changes the mCreated flag. -/
theorem readPartitions_created (d : Disk) (env : ScanEnv) :
    (d.readPartitions env).state.mCreated = d.mCreated := by
  unfold Disk.readPartitions Disk.destroyAllVolumes
  by_cases h0 : env.maxMinors < 0
  · simp [h0]
  · by_cases h1 : d.mSkipChange <;> cases hs : env.sgdisk <;> simp [h0, h1, hs]

/-- readPartitions never changes the mIsStub flag. -/
theorem readPartitions_isStub (d : Disk) (env : ScanEnv) :
    (d.readPartitions env).state.mIsStub = d.mIsStub := by
  unfold Disk.readPartitions Disk.destroyAllVolumes
  by_cases h0 : env.maxMinors < 0
  · simp [h0]
  · by_cases h1 : d.mSkipChange <;> cases hs : env.sgdisk <;> simp [h0, h1, hs]

/-- A non-stub, not-yet-created disk is created by scanning its partitions. -/
theorem create_nonstub (env : ScanEnv) (s : Disk) (h1 : s.mCreated = false)
    (h2 : s.mIsStub = false) :
    Disk.create env s
      = some ((({ s with mCreated := true } : Disk).readPartitions env).state) := by
  simp [Disk.create, h1, h2]

/-- Destroying a created disk clears the owned volumes and the created flag. -/
theorem destroy_created (s : Disk) (h1 : s.mCreated = true) :
    Disk.destroy s = some { s.destroyAllVolumes with mCreated := false } := by
  simp [Disk.destroy, h1]

/-- Claim C4 (amended): create and destroy must strictly alternate starting
with create: a second create without an intervening destroy, and a destroy
without a prior create, are fatal assertions; on a non-stub disk the sequence
create, destroy, create, destroy succeeds and the owned-volume sequence is
empty after each successful destroy.  (On a stub disk the second create is
itself a fatal assertion, since destroy cleared its predetermined volume.) -/
theorem c4_lifecycle_amended (d : Disk) (env1 env2 : ScanEnv) (h : d.mCreated = false) :
    (∀ s : Disk, s.mCreated = true → Disk.create env1 s = none) ∧
    (∀ s s2 : Disk, Disk.create env1 s = some s2 →
      s2.mCreated = true ∧ Disk.create env2 s2 = none) ∧
    (∀ s : Disk, s.mCreated = false → Disk.destroy s = none) ∧
    (d.mIsStub = false →
      ∃ s1 s2 s3 s4 : Disk, Disk.create env1 d = some s1 ∧ Disk.destroy s1 = some s2 ∧
        Disk.create env2 s2 = some s3 ∧ Disk.destroy s3 = some s4 ∧
        s2.mVolumes = [] ∧ s4.mVolumes = []) := by
  have created_of_create : ∀ (env : ScanEnv) (s s2 : Disk),
      Disk.create env s = some s2 → s2.mCreated = true := by
    intro env s s2 hc
    by_cases hcr : s.mCreated
    · simp [Disk.create, hcr] at hc
    · simp only [Bool.not_eq_true] at hcr
      simp only [Disk.create, hcr, Bool.false_eq_true, if_false] at hc
      by_cases hstub : ({ s with mCreated := true } : Disk).mIsStub
      · rw [if_pos hstub] at hc
        by_cases hlen : ({ s with mCreated := true } : Disk).mVolumes.length = 1
        · rw [if_pos hlen] at hc
          cases hc
          rfl
        · rw [if_neg hlen] at hc
          cases hc
      · rw [if_neg hstub] at hc
        cases hc
        rw [readPartitions_created]
  refine ⟨?_, ?_, ?_, ?_⟩
  · intro s hs
    simp [Disk.create, hs]
  · intro s s2 hc
    have h2 := created_of_create env1 s s2 hc
    exact ⟨h2, by simp [Disk.create, h2]⟩
  · intro s hs
    simp [Disk.destroy, hs]
  · intro hstub
    have hs1c : ((({ d with mCreated := true } : Disk).readPartitions env1).state).mCreated
        = true := by
      rw [readPartitions_created]
    have hs1stub : ((({ d with mCreated := true } : Disk).readPartitions env1).state).mIsStub
        = false := by
      rw [readPartitions_isStub]
      exact hstub
    refine ⟨_, _, _, _,
      create_nonstub env1 d h hstub,
      destroy_created _ hs1c,
      create_nonstub env2 _ rfl hs1stub,
      destroy_created _ (by rw [readPartitions_created]),
      rfl, rfl⟩

/-- Witness for C4: on a concrete non-stub SCSI disk the full
create-destroy-create-destroy sequence succeeds with empty volumes after each
destroy. -/
theorem c4_lifecycle_amended_witness :
    ∃ s1 s2 s3 s4 : Disk,
      Disk.create ⟨15, Except.ok [], false, fun _ => none⟩
          ⟨⟨8, 0⟩, false, false, false, [], false⟩ = some s1 ∧
      Disk.destroy s1 = some s2 ∧
      Disk.create ⟨15, Except.ok [], false, fun _ => none⟩ s2 = some s3 ∧
      Disk.destroy s3 = some s4 ∧
      s2.mVolumes = [] ∧ s4.mVolumes = [] :=
  (c4_lifecycle_amended ⟨⟨8, 0⟩, false, false, false, [], false⟩
      ⟨15, Except.ok [], false, fun _ => none⟩
      ⟨15, Except.ok [], false, fun _ => none⟩ rfl).2.2.2 rfl

/-- Counterexample for C4 as stated: on a stub disk holding its predetermined
volume, create and destroy succeed once, but the second create of the
create-destroy-create-destroy sequence is a fatal assertion (the stub volume
count check fails), so the sequence does not succeed for every Disk. -/
theorem c4_counterexample :
    (Disk.create ⟨15, Except.ok [], false, fun _ => none⟩
        ⟨⟨8, 0⟩, false, false, false, [Volume.stubVol], true⟩).bind Disk.destroy ≠ none ∧
    ((Disk.create ⟨15, Except.ok [], false, fun _ => none⟩
        ⟨⟨8, 0⟩, false, false, false, [Volume.stubVol], true⟩).bind Disk.destroy).bind
      (Disk.create ⟨15, Except.ok [], false, fun _ => none⟩) = none := by
  constructor
  · decide
  · decide

/-- Counterexample for C9 as stated: ratio -5 is nonzero and outside [10,90]
(int8_t admits negative ratios), yet partitionMixed does not reject it with a
validation error: it proceeds to table construction and succeeds. -/
theorem c9_counterexample :
    (Disk.partitionMixed ⟨⟨8, 0⟩, true, false, false, [], false⟩ (-5)
      ⟨0, some [171], some [1, 2, 3], true, 0⟩ (fun _ => none)).status = 0 ∧
    (Disk.partitionMixed ⟨⟨8, 0⟩, true, false, false, [], false⟩ (-5)
      ⟨0, some [171], some [1, 2, 3], true, 0⟩ (fun _ => none)).tableCmdRun = true := by
  exact ⟨rfl, rfl⟩

/-- Claim C9 (amended): partitionMixed with a positive ratio outside [10,90]
(for example 5 or 95) is rejected with the validation error -EINVAL before the
table-construction command; ratio 0 (or any nonpositive ratio) and any ratio
in [10,90] proceed to table construction. -/
theorem c9_ratio_validation_amended (d : Disk) (ratio : Int) (env : MixedEnv) (ks : KeyStore)
    (hu : env.uuid.isSome = true) (hk : env.key.isSome = true) (hw : env.writeOk = true) :
    ((0 < ratio ∧ (ratio < 10 ∨ 90 < ratio)) →
      (d.partitionMixed ratio env ks).status = -22 ∧
      (d.partitionMixed ratio env ks).tableCmdRun = false) ∧
    ((ratio ≤ 0 ∨ (10 ≤ ratio ∧ ratio ≤ 90)) →
      (d.partitionMixed ratio env ks).tableCmdRun = true) := by
  cases henvu : env.uuid with
  | none => rw [henvu] at hu; simp at hu
  | some u =>
    cases henvk : env.key with
    | none => rw [henvk] at hk; simp at hk
    | some k =>
      simp only [Disk.partitionMixed, henvu, henvk]
      rw [if_neg (by simp [hw])]
      constructor
      · intro hr
        rw [if_pos hr]
        exact ⟨rfl, rfl⟩
      · intro hr
        rw [if_neg (by omega)]
        by_cases hs : env.sgdiskStatus ≠ 0
        · rw [if_pos hs]
        · rw [if_neg hs]

/-- Witness for C9 (amended): ratio 5 is rejected with -EINVAL and the
table-construction command is never invoked. -/
theorem c9_ratio_validation_amended_witness :
    (Disk.partitionMixed ⟨⟨8, 0⟩, true, false, false, [], false⟩ 5
      ⟨0, some [171], some [1, 2, 3], true, 0⟩ (fun _ => none)).status = -22 ∧
    (Disk.partitionMixed ⟨⟨8, 0⟩, true, false, false, [], false⟩ 5
      ⟨0, some [171], some [1, 2, 3], true, 0⟩ (fun _ => none)).tableCmdRun = false :=
  (c9_ratio_validation_amended ⟨⟨8, 0⟩, true, false, false, [], false⟩ 5
      ⟨0, some [171], some [1, 2, 3], true, 0⟩ (fun _ => none) rfl rfl rfl).1
    (by constructor <;> [decide; exact Or.inl (by decide)])

/-- Claim C10: when partitionMixed rejects a positive out-of-range ratio, the
rejection is not atomic: the disk's volumes are already destroyed,
mJustPartitioned is already set, the zap tool already ran, and a fresh key was
already persisted under the fresh GUID's hex form. -/
theorem c10_reject_after_side_effects (d : Disk) (ratio : Int) (env : MixedEnv) (ks : KeyStore)
    (u k : List Nat) (hu : env.uuid = some u) (hk : env.key = some k) (hw : env.writeOk = true)
    (hr : 0 < ratio ∧ (ratio < 10 ∨ 90 < ratio)) :
    (d.partitionMixed ratio env ks).status = -22 ∧
    (d.partitionMixed ratio env ks).state.mVolumes = [] ∧
    (d.partitionMixed ratio env ks).state.mJustPartitioned = true ∧
    (d.partitionMixed ratio env ks).zapRun = true ∧
    (d.partitionMixed ratio env ks).keyPersisted = some (strToHex u, k) ∧
    (d.partitionMixed ratio env ks).keyStore (strToHex u) = some k := by
  simp only [Disk.partitionMixed, hu, hk]
  rw [if_neg (by simp [hw]), if_pos hr]
  refine ⟨rfl, rfl, rfl, rfl, rfl, ?_⟩
  simp

/-- Witness for C10: partitionMixed(95) fails with -EINVAL yet has already
cleared the volumes, set mJustPartitioned, run zap, and persisted the key. -/
theorem c10_reject_after_side_effects_witness :
    (Disk.partitionMixed ⟨⟨8, 0⟩, true, false, true, [Volume.pub ⟨8, 1⟩], false⟩ 95
      ⟨0, some [171], some [1, 2, 3], true, 0⟩ (fun _ => none)).status = -22 ∧
    (Disk.partitionMixed ⟨⟨8, 0⟩, true, false, true, [Volume.pub ⟨8, 1⟩], false⟩ 95
      ⟨0, some [171], some [1, 2, 3], true, 0⟩ (fun _ => none)).state.mVolumes = [] ∧
    (Disk.partitionMixed ⟨⟨8, 0⟩, true, false, true, [Volume.pub ⟨8, 1⟩], false⟩ 95
      ⟨0, some [171], some [1, 2, 3], true, 0⟩ (fun _ => none)).state.mJustPartitioned = true ∧
    (Disk.partitionMixed ⟨⟨8, 0⟩, true, false, true, [Volume.pub ⟨8, 1⟩], false⟩ 95
      ⟨0, some [171], some [1, 2, 3], true, 0⟩ (fun _ => none)).zapRun = true ∧
    (Disk.partitionMixed ⟨⟨8, 0⟩, true, false, true, [Volume.pub ⟨8, 1⟩], false⟩ 95
      ⟨0, some [171], some [1, 2, 3], true, 0⟩
      (fun _ => none)).keyPersisted = some (strToHex [171], [1, 2, 3]) ∧
    (Disk.partitionMixed ⟨⟨8, 0⟩, true, false, true, [Volume.pub ⟨8, 1⟩], false⟩ 95
      ⟨0, some [171], some [1, 2, 3], true, 0⟩
      (fun _ => none)).keyStore (strToHex [171]) = some [1, 2, 3] :=
  c10_reject_after_side_effects ⟨⟨8, 0⟩, true, false, true, [Volume.pub ⟨8, 1⟩], false⟩ 95
    ⟨0, some [171], some [1, 2, 3], true, 0⟩ (fun _ => none) [171] [1, 2, 3]
    rfl rfl rfl ⟨by decide, Or.inr (by decide)⟩

/-- Claim C3: after a successful partitionPrivate/partitionMixed persisted a
fresh key under the generated GUID's hex form, any subsequent scan that finds
a GPT Android-expand partition whose partition GUID normalizes to that same
hex id loads the persisted key and constructs a private volume whose key bytes
equal the persisted bytes. -/
theorem c3_key_roundtrip (d d2 : Disk) (ratio : Int) (menv : MixedEnv) (ks : KeyStore)
    (u k : List Nat) (mm : Int) (output : List (List String)) (probe : Bool)
    (dev2 : DevT) (pg : String)
    (hu : menv.uuid = some u) (hk : menv.key = some k) (hw : menv.writeOk = true)
    (hs : menv.sgdiskStatus = 0)
    (hratio : ratio ≤ 0 ∨ (10 ≤ ratio ∧ ratio ≤ 90))
    (hmm : 0 ≤ mm) (hskip : d2.mSkipChange = false)
    (hdec : Decision.Private dev2 pg ∈ (scanOutput d2.mDevice mm.toNat output probe).decisions)
    (hn : normalizeHex pg = some (strToHex u)) :
    (d.partitionMixed ratio menv ks).status = 0 ∧
    Volume.priv dev2 pg k ∈
      (d2.readPartitions ⟨mm, Except.ok output, probe,
        (d.partitionMixed ratio menv ks).keyStore⟩).state.mVolumes := by
  have hmix : d.partitionMixed ratio menv ks
      = ⟨0, { d.destroyAllVolumes with mJustPartitioned := true },
          fun g => if g = strToHex u then some k else ks g, true,
          some (strToHex u, k), true⟩ := by
    simp only [Disk.partitionMixed, hu, hk]
    rw [if_neg (by simp [hw]), if_neg (by omega), hs]
    rw [if_neg (by simp)]
  rw [hmix]
  refine ⟨rfl, ?_⟩
  simp only [Disk.readPartitions]
  rw [if_neg (by omega), if_neg (by simp [hskip])]
  show Volume.priv dev2 pg k ∈
    (scanOutput d2.mDevice mm.toNat output probe).decisions.filterMap
      (decisionVolume (fun g => if g = strToHex u then some k else ks g))
  refine List.mem_filterMap.mpr ⟨Decision.Private dev2 pg, hdec, ?_⟩
  simp only [decisionVolume, hn]
  simp

/-- Witness for C3: a concrete partitionPrivate persists the key for raw GUID
byte 0xab, and a later GPT scan reporting the Android-expand partition with
GUID token "AB" yields a private volume with exactly the persisted key. -/
theorem c3_key_roundtrip_witness :
    (Disk.partitionMixed ⟨⟨179, 0⟩, true, false, false, [], false⟩ 0
      ⟨0, some [171], some [1, 2, 3], true, 0⟩ (fun _ => none)).status = 0 ∧
    Volume.priv ⟨179, 1⟩ "AB" [1, 2, 3] ∈
      (Disk.readPartitions ⟨⟨179, 0⟩, true, false, false, [], false⟩
        ⟨15, Except.ok [["DISK", "gpt"],
            ["PART", "1", "193D1EA4-B3CA-11E4-B075-10604B889DCF", "AB"]], false,
          (Disk.partitionMixed ⟨⟨179, 0⟩, true, false, false, [], false⟩ 0
            ⟨0, some [171], some [1, 2, 3], true, 0⟩
            (fun _ => none)).keyStore⟩).state.mVolumes :=
  c3_key_roundtrip ⟨⟨179, 0⟩, true, false, false, [], false⟩
    ⟨⟨179, 0⟩, true, false, false, [], false⟩ 0
    ⟨0, some [171], some [1, 2, 3], true, 0⟩ (fun _ => none) [171] [1, 2, 3] 15
    [["DISK", "gpt"], ["PART", "1", "193D1EA4-B3CA-11E4-B075-10604B889DCF", "AB"]]
    false ⟨179, 1⟩ "AB" rfl rfl rfl rfl (Or.inl (by decide)) (by decide) rfl
    (by decide) (by decide)
